import Mathlib

/-!
Verification of the Vbox box-measurement system (src/Vbox_v1.py, src/PLC.py,
src/Arduinooutput.py) against its natural-language specification.

The Python classes are shallowly embedded: the mutable `output_byte` of the
encoder objects becomes explicit state passing over `Nat`, the per-frame
mutable counters of `BoxMeasurementSystem` become a record threaded through a
step function, and float arithmetic is modelled over `ℚ` (exact arithmetic;
the geometric norms that genuinely need square roots are modelled over `ℝ`).
-/

/-! ### ARDOutputMap (src/Vbox_v1.py, lines 20-124)

The class holds a single byte `output_byte`, initially `0b00000000`, mutated
by four update methods.  Each method becomes a function `Nat → _ → Nat` on
the byte. -/

namespace ARDOutputMap

/-- Line 37-42: set or clear bit 0 (camera operational). -/
def update_camera_status (b : ℕ) (is_operational : Bool) : ℕ :=
  if is_operational then b ||| 0b00000001 else b &&& 0b11111110

/-- Line 44-49: set or clear bit 1 (system error). -/
def update_error_status (b : ℕ) (has_error : Bool) : ℕ :=
  if has_error then b ||| 0b00000010 else b &&& 0b11111101

/-- Line 51-56: set or clear bit 2 (box detected). -/
def update_box_detected (b : ℕ) (is_detected : Bool) : ℕ :=
  if is_detected then b ||| 0b00000100 else b &&& 0b11111011

/-- Line 58-72: clear bits 3-4, then set the 2-bit type code
(01 = 10x20, 10 = 20x20, 11 = 30x50, 00 = anything else). -/
def update_box_type (b : ℕ) (box_type : String) : ℕ :=
  let b0 := b &&& 0b11100111
  if box_type = "10x20" then b0 ||| 0b00001000
  else if box_type = "20x20" then b0 ||| 0b00010000
  else if box_type = "30x50" then b0 ||| 0b00011000
  else b0 ||| 0b00000000

end ARDOutputMap

/-- Result record of `get_output_string` (lines 81-107).  The `binary` field of
the Python dict is only the base-2 rendering of the byte itself and is not
modelled; the four logical fields are. -/
structure ARDOutputInfo where
  camera : String
  error : String
  detection : String
  type : String
  deriving Repr, DecidableEq

namespace ARDOutputMap

/-- Lines 81-107: project the byte to the status dict.  Python truthiness of
`byte & mask` is nonzero-ness. -/
def get_output_string (b : ℕ) : ARDOutputInfo :=
  { camera := if b &&& 0b00000001 ≠ 0 then "1" else "0"
    error := if b &&& 0b00000010 ≠ 0 then "1" else "0"
    detection := if b &&& 0b00000100 ≠ 0 then "1" else "0"
    type :=
      let type_bits := (b &&& 0b00011000) >>> 3
      if type_bits = 0b01 then "10x20"
      else if type_bits = 0b10 then "20x20"
      else if type_bits = 0b11 then "30x50"
      else "NONE" }

end ARDOutputMap

/-- One call to one of the four update methods of an output-map object. -/
inductive OutOp where
  | camera (is_operational : Bool)
  | error (has_error : Bool)
  | detected (is_detected : Bool)
  | boxType (box_type : String)
  deriving Repr, DecidableEq

namespace ARDOutputMap

/-- Dispatch one update call to the byte. -/
def applyOp (b : ℕ) : OutOp → ℕ
  | .camera x => update_camera_status b x
  | .error x => update_error_status b x
  | .detected x => update_box_detected b x
  | .boxType t => update_box_type b t

/-- The byte held after a sequence of update calls on a freshly constructed
`ARDOutputMap` (initial `output_byte = 0b00000000`, line 28). -/
def runOps (ops : List OutOp) : ℕ :=
  ops.foldl applyOp 0

/-- The byte after the exact call sequence of `update_output_map`
(lines 434-455): camera, then error, then detected, then box type, starting
from a fresh encoder. -/
def packed_byte (c e d : Bool) (t : String) : ℕ :=
  update_box_type (update_box_detected (update_error_status (update_camera_status 0 c) e) d) t

end ARDOutputMap

/-! ### PLCOutputMap (src/PLC.py, lines 4-110)

A second, textually independent encoder class with the same four update
methods; embedded separately from its own source so that equivalence with
`ARDOutputMap` is a theorem, not a definition. -/

/-- Result record of `PLCOutputMap.get_output_string` (PLC.py lines 65-93);
it additionally carries the byte itself as `decimal`. -/
structure PLCOutputInfo where
  decimal : ℕ
  camera : String
  error : String
  detection : String
  type : String
  deriving Repr, DecidableEq

namespace PLCOutputMap

/-- PLC.py lines 21-26. -/
def update_camera_status (b : ℕ) (is_operational : Bool) : ℕ :=
  if is_operational then b ||| 0b00000001 else b &&& 0b11111110

/-- PLC.py lines 28-33. -/
def update_error_status (b : ℕ) (has_error : Bool) : ℕ :=
  if has_error then b ||| 0b00000010 else b &&& 0b11111101

/-- PLC.py lines 35-40. -/
def update_box_detected (b : ℕ) (is_detected : Bool) : ℕ :=
  if is_detected then b ||| 0b00000100 else b &&& 0b11111011

/-- PLC.py lines 42-56. -/
def update_box_type (b : ℕ) (box_type : String) : ℕ :=
  let b0 := b &&& 0b11100111
  if box_type = "10x20" then b0 ||| 0b00001000
  else if box_type = "20x20" then b0 ||| 0b00010000
  else if box_type = "30x50" then b0 ||| 0b00011000
  else b0 ||| 0b00000000

/-- PLC.py lines 65-93. -/
def get_output_string (b : ℕ) : PLCOutputInfo :=
  { decimal := b
    camera := if b &&& 0b00000001 ≠ 0 then "1" else "0"
    error := if b &&& 0b00000010 ≠ 0 then "1" else "0"
    detection := if b &&& 0b00000100 ≠ 0 then "1" else "0"
    type :=
      let type_bits := (b &&& 0b00011000) >>> 3
      if type_bits = 0b01 then "10x20"
      else if type_bits = 0b10 then "20x20"
      else if type_bits = 0b11 then "30x50"
      else "NONE" }

/-- Dispatch one update call to the PLC byte. -/
def applyOp (b : ℕ) : OutOp → ℕ
  | .camera x => update_camera_status b x
  | .error x => update_error_status b x
  | .detected x => update_box_detected b x
  | .boxType t => update_box_type b t

/-- The byte held after a sequence of update calls on a freshly constructed
`PLCOutputMap` (initial `output_byte = 0b00000000`, PLC.py line 12). -/
def runOps (ops : List OutOp) : ℕ :=
  ops.foldl applyOp 0

end PLCOutputMap

/-! ### ArduinoOutput line protocol (src/Arduinooutput.py, lines 44-121) -/

namespace ArduinoOutput

/-- Lines 44-50 together with the `.get(box_type, 0b111)` default of line 92:
the 3-bit per-pin type code. -/
def type_codes (box_type : String) : ℕ :=
  if box_type = "10x20" then 0b001
  else if box_type = "20x20" then 0b010
  else if box_type = "30x50" then 0b100
  else if box_type = "NONE" then 0b000
  else if box_type = "UNKNOWN" then 0b111
  else 0b111

/-- Lines 85-100 of `update_status`: the six colon-separated fields
`camera:error:detected:t0:t1:t2` of the emitted command line, as numbers
(`int(bool)` is 1 or 0; `tK` is bit K of the 3-bit type code). -/
def update_status (camera_status error_status detection_status : Bool) (box_type : String) :
    List ℕ :=
  let type_code := type_codes box_type
  [if camera_status then 1 else 0,
   if error_status then 1 else 0,
   if detection_status then 1 else 0,
   (type_code >>> 0) &&& 1,
   (type_code >>> 1) &&& 1,
   (type_code >>> 2) &&& 1]

end ArduinoOutput

/-! ### Decoders for the two wire formats (claim C1) -/

/-- The logical fields carried by either wire format. -/
structure DecodedStatus where
  camera : Bool
  error : Bool
  detected : Bool
  box_type : String
  deriving Repr, DecidableEq

/-- Decoder of the packed byte, reading the fields exactly as
`ARDOutputMap.get_output_string` (Vbox_v1.py lines 81-107) does: bit 0 is
camera, bit 1 error, bit 2 detected, bits 3-4 the 2-bit type code with
00 decoding to NONE. -/
def decode_packed (b : ℕ) : DecodedStatus :=
  { camera := b &&& 0b00000001 != 0
    error := b &&& 0b00000010 != 0
    detected := b &&& 0b00000100 != 0
    box_type :=
      let type_bits := (b &&& 0b00011000) >>> 3
      if type_bits = 0b01 then "10x20"
      else if type_bits = 0b10 then "20x20"
      else if type_bits = 0b11 then "30x50"
      else "NONE" }

/-- Modelled from the spec: the receiving firmware for the colon-delimited
line is not in the repository; this decoder inverts the documented pin
semantics of Arduinooutput.py lines 12-25 and the `type_codes` table
(001 = 10x20, 010 = 20x20, 100 = 30x50, 000 = no box, 111 = unknown). -/
def decode_line : List ℕ → DecodedStatus
  | [c, e, d, t0, t1, t2] =>
    { camera := c != 0
      error := e != 0
      detected := d != 0
      box_type :=
        let code := t0 + 2 * t1 + 4 * t2
        if code = 0b001 then "10x20"
        else if code = 0b010 then "20x20"
        else if code = 0b100 then "30x50"
        else if code = 0b000 then "NONE"
        else "UNKNOWN" }
  | _ => { camera := false, error := false, detected := false, box_type := "INVALID" }

/-! ### Calibration state (src/Vbox_v1.py, lines 146-150, 353-388, 794-804)

`pixels_per_cm` starts as Python `None`, hence `Option ℚ`.  The two pixel
edge lengths of the ordered reference rectangle are produced by
`scipy.spatial.distance.euclidean` on corners delivered by OpenCV and
imutils (external collaborators); `calibrate_with_reference` is embedded
from the point where those two lengths are in hand (lines 367-377). -/

structure CalibState where
  pixels_per_cm : Option ℚ
  calibrated : Bool
  deriving Repr, DecidableEq

/-- Lines 147-148 of `__init__`: uncalibrated, no scale. -/
def initCalib : CalibState :=
  { pixels_per_cm := none, calibrated := false }

/-- Lines 367-377 of `calibrate_with_reference`: given the two measured pixel
edge lengths, take the smaller, divide by `reference_width_cm` and subtract
the constant 28, then set `calibrated`. -/
def calibrate_with_reference (s : CalibState) (reference_width_cm width_pixels height_pixels : ℚ) :
    CalibState :=
  let min_dimension := min width_pixels height_pixels
  { s with
    pixels_per_cm := some (min_dimension / reference_width_cm - 28)
    calibrated := true }

/-- Lines 796-801 of `run`: a persisted `PIXELS_PER_CM = v` line sets the
scale to `v` and marks the system calibrated, with no positivity check. -/
def load_calibration (s : CalibState) (value : ℚ) : CalibState :=
  { s with pixels_per_cm := some value, calibrated := true }

/-! ### Box classification (src/Vbox_v1.py, lines 129-134, 415-432) -/

/-- Lines 129-133: the catalog dict in declaration order. -/
def box_types : List (String × ℚ × ℚ) :=
  [("10x20", 10, 20), ("20x20", 20, 20), ("30x50", 30, 50)]

/-- Line 134: the ±3 cm tolerance. -/
def tolerance_cm : ℚ := 3

/-- Lines 421-429: one catalog entry matches if the direct pairing or the
swapped pairing is within tolerance. -/
def entry_matches (width_cm height_cm : ℚ) (entry : String × ℚ × ℚ) : Bool :=
  (decide (|width_cm - entry.2.1| ≤ tolerance_cm) &&
      decide (|height_cm - entry.2.2| ≤ tolerance_cm)) ||
    (decide (|width_cm - entry.2.2| ≤ tolerance_cm) &&
        decide (|height_cm - entry.2.1| ≤ tolerance_cm))

/-- Lines 415-432 of `classify_box` on non-`None` inputs: return the first
catalog entry matching directly or swapped, else `("UNKNOWN", False)`. -/
def classify_box (width_cm height_cm : ℚ) : String × Bool :=
  match box_types.find? (entry_matches width_cm height_cm) with
  | some entry => (entry.1, true)
  | none => ("UNKNOWN", false)

/-! ### Angle normalization and the alignment gate
(src/Vbox_v1.py, lines 228-235) -/

/-- Lines 229-231: fold an angle below -45 by +90, then take the absolute
value. -/
def normalize_angle (a : ℚ) : ℚ :=
  |if a < -45 then 90 + a else a|

/-- Lines 233-235: the contour is rejected when the normalized angle is
strictly above `max_angle_deviation` and strictly below
`90 - max_angle_deviation`; it passes the gate otherwise. -/
def angle_gate_accepts (angle max_angle_deviation : ℚ) : Bool :=
  !(decide (max_angle_deviation < angle) && decide (angle < 90 - max_angle_deviation))

/-! ### Interior-angle computation of `is_aligned_rectangle`
(src/Vbox_v1.py, lines 242-261)

The loop over the four ordered corners builds edge vectors with numpy,
takes `np.linalg.norm` (a real square root) and, when no norm product is
zero, pushes the clamped cosine `max(-1, min(1, dot/norm))` into `acos`.
The stage is embedded over `ℝ`; an early `return False, None, None` at any
index is the `none` result. -/

/-- Componentwise difference of two points (numpy vector subtraction). -/
def vsub (p q : ℝ × ℝ) : ℝ × ℝ := (p.1 - q.1, p.2 - q.2)

/-- Planar dot product (`np.dot`). -/
def dotp (v w : ℝ × ℝ) : ℝ := v.1 * w.1 + v.2 * w.2

/-- Euclidean vector norm (`np.linalg.norm`). -/
noncomputable def vnorm (v : ℝ × ℝ) : ℝ := Real.sqrt (v.1 * v.1 + v.2 * v.2)

/-- Line 259: clamp the cosine argument into `[-1, 1]` before `acos`. -/
def clamp_cos (x : ℝ) : ℝ := max (-1) (min 1 x)

section InteriorCheck

open Classical

/-- Lines 244-261: for corner index `i`, the vectors are
`v1 = box[(i+1)%4] - box[i]` and `v2 = box[(i+1)%4] - box[(i+2)%4]`.
If any product of their norms is zero the candidate is rejected (`none`);
otherwise each index yields the clamped cosine argument handed to
`math.acos`. -/
noncomputable def interior_cos_args (box : Fin 4 → ℝ × ℝ) : Option (Fin 4 → ℝ) :=
  if ∃ i : Fin 4,
      vnorm (vsub (box (i + 1)) (box i)) * vnorm (vsub (box (i + 1)) (box (i + 2))) = 0 then
    none
  else
    some fun i =>
      clamp_cos (dotp (vsub (box (i + 1)) (box i)) (vsub (box (i + 1)) (box (i + 2))) /
        (vnorm (vsub (box (i + 1)) (box i)) * vnorm (vsub (box (i + 1)) (box (i + 2)))))

end InteriorCheck

/-! ### Per-frame pipeline state (src/Vbox_v1.py, lines 160-183, 457-475,
557-648)

The camera and timeout flags of `system_errors` depend on external
resources (the capture device and the wall clock) and are not part of this
state; `check_system_errors` is embedded for the `processing_error` flag it
computes from the modelled counters.  A frame's input is the list of
box-type labels classified as valid this frame (`current_detections`,
lines 594-614), in loop order. -/

structure SysState where
  frames_processed : ℕ
  valid_boxes : ℕ
  stable_detection_count : ℕ
  last_stable_type : Option String
  processing_error : Bool
  box_type_history : List String
  deriving Repr, DecidableEq

/-- Lines 169-183 of `__init__`: counters zero, no stable type, no error. -/
def initSys : SysState :=
  { frames_processed := 0
    valid_boxes := 0
    stable_detection_count := 0
    last_stable_type := none
    processing_error := false
    box_type_history := [] }

/-- Lines 468-472 of `check_system_errors`: `processing_error` is set iff
more than 100 frames have been processed and `valid_boxes` is zero. -/
def check_system_errors (s : SysState) : SysState :=
  { s with
    processing_error := decide (100 < s.frames_processed) && decide (s.valid_boxes = 0) }

/-- Line 441 of `update_output_map`: `any(self.system_errors.values())` over
the four flags of the `system_errors` dict. -/
def has_error (camera_error calibration_error processing_error timeout_error : Bool) : Bool :=
  camera_error || calibration_error || processing_error || timeout_error

/-- Keep only the newest `cap` elements after appending, as
`deque(maxlen=cap)` does. -/
def push_bounded (cap : ℕ) (h xs : List String) : List String :=
  let l := h ++ xs
  l.drop (l.length - cap)

/-- Remove duplicates keeping the first occurrence of each label, the
iteration order of a Python `Counter` built from the list. -/
def dedup_first : List String → List String
  | [] => []
  | x :: xs => x :: (dedup_first xs).filter (fun y => y != x)

/-- Lines 630-634: `Counter(current_detections).most_common(1)` — the label
with the highest count, ties resolved in favour of the earliest-inserted
label (`most_common` sorts by count with a stable sort). -/
def most_common (l : List String) : Option String :=
  (dedup_first l).foldl
    (fun best x =>
      match best with
      | none => some x
      | some b => if l.count b < l.count x then some x else best)
    none

/-- Lines 557-648 of `process_frame`, restricted to the modelled state:
increment `frames_processed`, run `check_system_errors` (which still sees
the previous frame's `valid_boxes`), append this frame's valid labels to
the bounded history, store this frame's valid count, then update the
stabilization pair (`stable_detection_count`, `last_stable_type`).  The
`stable_detection_count >= 3` branch of lines 644-645 re-assigns the value
`last_stable_type` already holds; it is kept as in the source. -/
def process_frame (s : SysState) (current_detections : List String) : SysState :=
  let s1 := { s with frames_processed := s.frames_processed + 1 }
  let s2 := check_system_errors s1
  let s3 := { s2 with box_type_history := push_bounded 20 s2.box_type_history current_detections }
  let s4 := { s3 with valid_boxes := current_detections.length }
  match most_common current_detections with
  | some current_type =>
    let s5 :=
      if s4.last_stable_type = some current_type then
        { s4 with stable_detection_count := s4.stable_detection_count + 1 }
      else
        { s4 with stable_detection_count := 1, last_stable_type := some current_type }
    if 3 ≤ s5.stable_detection_count then { s5 with last_stable_type := some current_type }
    else s5
  | none => { s4 with stable_detection_count := 0, last_stable_type := none }

/-- A whole session: fold `process_frame` over the per-frame lists of valid
classifications. -/
def run_frames (s : SysState) (frames : List (List String)) : SysState :=
  frames.foldl process_frame s

/-! ## Theorems -/

/-- C5 (confirmed): for every candidate rotation angle, after the fold-and-abs
normalization of lines 229-231, the alignment gate of `is_aligned_rectangle`
accepts the candidate if and only if the minimum of the normalized angle and
its complement to 90 is at most `max_angle_deviation`, equality included. -/
theorem angle_gate_iff_min_le (a d : ℚ) :
    angle_gate_accepts (normalize_angle a) d = true ↔
      min (normalize_angle a) (90 - normalize_angle a) ≤ d := by
  set A := normalize_angle a with hA
  rw [min_le_iff]
  unfold angle_gate_accepts
  simp only [Bool.not_eq_true', Bool.and_eq_false_iff, decide_eq_false_iff_not, not_lt]
  constructor
  · rintro (h | h)
    · exact Or.inl h
    · exact Or.inr (by linarith)
  · rintro (h | h)
    · exact Or.inl h
    · exact Or.inr (by linarith)

/-- Commutation pattern of the two tolerance conjunctions under a width-height
swap. -/
theorem bool_swap_or_and (a b c d : Bool) :
    (a && b || (c && d)) = (d && c || (b && a)) := by
  cases a <;> cases b <;> cases c <;> cases d <;> rfl

/-- Swapping the measured width and height swaps the roles of the direct and
the swapped pairing of one catalog entry, leaving the match unchanged. -/
theorem entry_matches_swap (w h : ℚ) (e : String × ℚ × ℚ) :
    entry_matches w h e = entry_matches h w e := by
  unfold entry_matches
  exact bool_swap_or_and _ _ _ _

/-- C6 (confirmed): `classify_box` returns the same (type, valid) pair when
width and height are exchanged, because every catalog entry is tested in both
the direct and the swapped pairing against the same tolerance and the
iteration order over the catalog does not depend on the arguments. -/
theorem classify_box_swap_invariant (w h : ℚ) :
    classify_box w h = classify_box h w := by
  unfold classify_box
  rw [funext (entry_matches_swap w h)]

/-- C7 (confirmed): `calibrate_with_reference` takes the smaller of the two
measured pixel edge lengths, sets `pixels_per_cm` to that length divided by
the reference size minus 28, and marks the system calibrated; with measured
edges 140 and 142 and reference size 2 the stored scale is 42. -/
theorem calibration_formula_and_example :
    (∀ (s : CalibState) (ref w_px h_px : ℚ),
        (calibrate_with_reference s ref w_px h_px).pixels_per_cm
            = some (min w_px h_px / ref - 28) ∧
          (calibrate_with_reference s ref w_px h_px).calibrated = true) ∧
      (calibrate_with_reference initCalib 2 140 142).pixels_per_cm = some 42 := by
  refine ⟨fun s ref w_px h_px => ⟨rfl, rfl⟩, ?_⟩
  norm_num [calibrate_with_reference, min_def]

/-- C2 (refuted as stated): `calibrate_with_reference` applied to a reference
rectangle with non-negative pixel edges 140 and 142 and positive reference
width 10 leaves the system calibrated while `pixels_per_cm` is -14, which is
not positive, so the invariant "calibrated implies pixels_per_cm > 0" fails
on a reachable state. -/
theorem calibrated_nonpositive_scale_cex :
    (0 : ℚ) < 10 ∧ (0 : ℚ) ≤ 140 ∧ (0 : ℚ) ≤ 142 ∧
      (calibrate_with_reference initCalib 10 140 142).calibrated = true ∧
      (calibrate_with_reference initCalib 10 140 142).pixels_per_cm = some (-14) ∧
      ¬ (0 : ℚ) < -14 := by
  refine ⟨by norm_num, by norm_num, by norm_num, rfl, ?_, by norm_num⟩
  norm_num [calibrate_with_reference, min_def]

/-- C2 (corrected): the invariant "calibrated implies pixels_per_cm > 0"
holds under the additional hypothesis that the smaller measured pixel edge
exceeds 28 times the positive reference width; and a loaded persisted value
keeps the invariant exactly when the stored value is positive. -/
theorem calibrated_positive_scale_amended :
    (∀ (s : CalibState) (ref w_px h_px : ℚ), 0 < ref → 28 * ref < min w_px h_px →
        (calibrate_with_reference s ref w_px h_px).calibrated = true ∧
          ∀ v, (calibrate_with_reference s ref w_px h_px).pixels_per_cm = some v → 0 < v) ∧
      ∀ (s : CalibState) (v : ℚ), 0 < v →
        (load_calibration s v).calibrated = true ∧
          ∀ u, (load_calibration s v).pixels_per_cm = some u → 0 < u := by
  constructor
  · intro s ref w_px h_px href hmin
    refine ⟨rfl, fun v hv => ?_⟩
    have hv' : min w_px h_px / ref - 28 = v := by
      simpa [calibrate_with_reference] using hv
    have h28 : (28 : ℚ) < min w_px h_px / ref := (lt_div_iff₀ href).mpr (by linarith)
    linarith
  · intro s v hv
    refine ⟨rfl, fun u hu => ?_⟩
    have hu' : v = u := by simpa [load_calibration] using hu
    linarith

/-- C2 witness: the amended invariant applied to the concrete calibration
with reference width 2 and edges 140 and 142, and to a loaded value 42. -/
theorem calibrated_positive_scale_amended_witness :
    ((calibrate_with_reference initCalib 2 140 142).calibrated = true ∧
        ∀ v, (calibrate_with_reference initCalib 2 140 142).pixels_per_cm = some v → 0 < v) ∧
      ((load_calibration initCalib 42).calibrated = true ∧
        ∀ u, (load_calibration initCalib 42).pixels_per_cm = some u → 0 < u) :=
  ⟨calibrated_positive_scale_amended.1 initCalib 2 140 142 (by norm_num)
      (by norm_num [min_def]),
    calibrated_positive_scale_amended.2 initCalib 42 (by norm_num)⟩

/-- C1 (refuted as stated): for the status (camera on, no error, detected)
with box type UNKNOWN, the packed byte decodes its type field to NONE (the
2-bit code cannot distinguish UNKNOWN from NONE) while the emitted line
decodes to UNKNOWN (3-bit code 111), so the two wire forms do not decode to
identical logical fields for every catalog-or-sentinel type value. -/
theorem packed_line_decoders_disagree_on_unknown :
    (decode_packed (ARDOutputMap.packed_byte true false true "UNKNOWN")).box_type = "NONE" ∧
      (decode_line (ArduinoOutput.update_status true false true "UNKNOWN")).box_type
          = "UNKNOWN" ∧
      decode_packed (ARDOutputMap.packed_byte true false true "UNKNOWN")
          ≠ decode_line (ArduinoOutput.update_status true false true "UNKNOWN") := by
  exact ⟨rfl, rfl, by decide⟩

/-- C1 (corrected): for every camera/error/detected combination and every box
type among 10x20, 20x20, 30x50 and NONE the packed byte and the emitted line
decode back to identical logical fields; for UNKNOWN the camera, error and
detected fields still agree, but the packed form decodes the type to NONE
while the line form decodes it to UNKNOWN. -/
theorem packed_line_decode_agree_amended :
    (∀ (c e d : Bool) (t : String),
        t ∈ (["10x20", "20x20", "30x50", "NONE"] : List String) →
          decode_packed (ARDOutputMap.packed_byte c e d t)
            = decode_line (ArduinoOutput.update_status c e d t)) ∧
      ∀ c e d : Bool,
        (decode_packed (ARDOutputMap.packed_byte c e d "UNKNOWN")).camera
              = (decode_line (ArduinoOutput.update_status c e d "UNKNOWN")).camera ∧
          (decode_packed (ARDOutputMap.packed_byte c e d "UNKNOWN")).error
              = (decode_line (ArduinoOutput.update_status c e d "UNKNOWN")).error ∧
          (decode_packed (ARDOutputMap.packed_byte c e d "UNKNOWN")).detected
              = (decode_line (ArduinoOutput.update_status c e d "UNKNOWN")).detected ∧
          (decode_packed (ARDOutputMap.packed_byte c e d "UNKNOWN")).box_type = "NONE" ∧
          (decode_line (ArduinoOutput.update_status c e d "UNKNOWN")).box_type
              = "UNKNOWN" := by
  constructor
  · intro c e d t ht
    simp only [List.mem_cons, List.not_mem_nil, or_false] at ht
    rcases ht with rfl | rfl | rfl | rfl <;> revert c e d <;> decide
  · decide

/-- C1 witness: the corrected agreement instantiated at camera on, error on,
detected on, box type 10x20. -/
theorem packed_line_decode_agree_amended_witness :
    decode_packed (ARDOutputMap.packed_byte true true true "10x20")
        = decode_line (ArduinoOutput.update_status true true true "10x20") :=
  packed_line_decode_agree_amended.1 true true true "10x20" (by decide)

/-- One update call keeps the ARD byte inside the 5 low bits. -/
theorem ARD_applyOp_lt (b : ℕ) (op : OutOp) (hb : b < 32) :
    ARDOutputMap.applyOp b op < 32 := by
  have h32 : (32 : ℕ) = 2 ^ 5 := by norm_num
  have hand : ∀ m : ℕ, b &&& m < 32 := fun m => lt_of_le_of_lt Nat.and_le_left hb
  have hor : ∀ x m : ℕ, x < 32 → m < 32 → x ||| m < 32 := by
    intro x m hx hm
    rw [h32] at hx hm ⊢
    exact Nat.or_lt_two_pow hx hm
  cases op <;>
    simp only [ARDOutputMap.applyOp, ARDOutputMap.update_camera_status,
      ARDOutputMap.update_error_status, ARDOutputMap.update_box_detected,
      ARDOutputMap.update_box_type] <;>
    split_ifs <;>
    first
      | exact hor _ _ hb (by norm_num)
      | exact hand _
      | exact hor _ _ (hand 231) (by norm_num)

/-- Folding any call sequence from a byte inside the 5 low bits stays
inside the 5 low bits. -/
theorem ARD_foldl_lt (ops : List OutOp) :
    ∀ b : ℕ, b < 32 → ops.foldl ARDOutputMap.applyOp b < 32 := by
  induction ops with
  | nil => intro b hb; simpa using hb
  | cons op rest ih => intro b hb; exact ih _ (ARD_applyOp_lt b op hb)

/-- C9 (confirmed): for every sequence of update calls starting from the
initial encoder state, bits 5, 6 and 7 of the packed output byte remain
zero. -/
theorem packed_reserved_bits_zero (ops : List OutOp) :
    (ARDOutputMap.runOps ops).testBit 5 = false ∧
      (ARDOutputMap.runOps ops).testBit 6 = false ∧
      (ARDOutputMap.runOps ops).testBit 7 = false := by
  have h32 : ARDOutputMap.runOps ops < 32 := ARD_foldl_lt ops 0 (by norm_num)
  refine ⟨?_, ?_, ?_⟩ <;>
    exact Nat.testBit_eq_false_of_lt (lt_of_lt_of_le h32 (by norm_num))

/-- C10 (confirmed): `PLCOutputMap` and `ARDOutputMap` are behaviourally
equivalent encoders: the same call sequence from their initial states leaves
equal output bytes, and `get_output_string` agrees on the camera, error,
detection and type fields. -/
theorem plc_ard_equivalence (ops : List OutOp) :
    PLCOutputMap.runOps ops = ARDOutputMap.runOps ops ∧
      (PLCOutputMap.get_output_string (PLCOutputMap.runOps ops)).camera
          = (ARDOutputMap.get_output_string (ARDOutputMap.runOps ops)).camera ∧
      (PLCOutputMap.get_output_string (PLCOutputMap.runOps ops)).error
          = (ARDOutputMap.get_output_string (ARDOutputMap.runOps ops)).error ∧
      (PLCOutputMap.get_output_string (PLCOutputMap.runOps ops)).detection
          = (ARDOutputMap.get_output_string (ARDOutputMap.runOps ops)).detection ∧
      (PLCOutputMap.get_output_string (PLCOutputMap.runOps ops)).type
          = (ARDOutputMap.get_output_string (ARDOutputMap.runOps ops)).type := by
  have happly : PLCOutputMap.applyOp = ARDOutputMap.applyOp := by
    funext b op
    cases op <;> rfl
  have hrun : PLCOutputMap.runOps ops = ARDOutputMap.runOps ops := by
    unfold PLCOutputMap.runOps ARDOutputMap.runOps
    rw [happly]
  refine ⟨hrun, ?_, ?_, ?_, ?_⟩ <;> rw [hrun] <;> rfl

set_option maxRecDepth 8000 in
/-- C3 (refuted as stated): a session whose first frame records one valid
classification (a 10x20 box) and whose following 101 frames record none
ends with `processing_error = true`, although a valid classification was
recorded earlier in the session, because `valid_boxes` holds only the most
recent frame's count.  The second conjunct records that exactly one valid
classification occurred over the whole session. -/
theorem processing_error_after_early_valid_cex :
    (run_frames initSys (["10x20"] :: List.replicate 101 [])).processing_error = true ∧
      ((["10x20"] :: List.replicate 101 []).map List.length).sum = 1 := by
  exact ⟨by decide, by decide⟩

set_option maxRecDepth 8000 in
/-- C3 (corrected): after any frame, `processing_error` holds exactly when
more than 100 frames have now been processed and the immediately preceding
frame recorded zero valid classifications (`valid_boxes` is overwritten each
frame, so it is the latest count, not a session total); zero valid
classifications across the first 101 frames therefore still force
`processing_error = true`, and a true `processing_error` flag drives
`has_error` and hence bit 1 of the next emitted status byte. -/
theorem processing_error_characterization_amended :
    (∀ (s : SysState) (dets : List String),
        (process_frame s dets).processing_error
          = (decide (100 < s.frames_processed + 1) && decide (s.valid_boxes = 0))) ∧
      (run_frames initSys (List.replicate 101 [])).processing_error = true ∧
      ∀ (cam cal tim : Bool) (b : ℕ),
        (ARDOutputMap.update_error_status b (has_error cam cal true tim)).testBit 1
          = true := by
  refine ⟨?_, by decide, ?_⟩
  · intro s dets
    unfold process_frame check_system_errors
    rcases hmc : most_common dets with _ | ct
    · simp only [hmc]
    · simp only [hmc]
      split_ifs <;> rfl
  · intro cam cal tim b
    have h1 : has_error cam cal true tim = true := by
      cases cam <;> cases cal <;> cases tim <;> rfl
    rw [h1]
    simp [ARDOutputMap.update_error_status, Nat.testBit_lor,
      show Nat.testBit 2 1 = true from rfl]

/-- C4 (refuted as stated): with per-frame majority inputs
10x20, 10x20, 10x20, 20x20 followed by three more 20x20 frames, the counter
`stable_detection_count` ends at 4, not at 3 as claimed (it is 1 after the
4th frame and increments on each of the three following frames). -/
theorem stabilization_count_after_three_more_cex :
    (run_frames initSys
          [["10x20"], ["10x20"], ["10x20"], ["20x20"], ["20x20"], ["20x20"], ["20x20"]]
        ).stable_detection_count = 4 ∧
      ¬ (run_frames initSys
            [["10x20"], ["10x20"], ["10x20"], ["20x20"], ["20x20"], ["20x20"], ["20x20"]]
          ).stable_detection_count = 3 := by
  exact ⟨by decide, by decide⟩

/-- C4 (corrected): for per-frame majority inputs A, A, A, B (with A = 10x20
and B = 20x20), after the 4th frame `last_stable_type` is B and
`stable_detection_count` is 1; after one, two and three further B frames the
counter is 2, 3 and 4 respectively, with `last_stable_type` equal to B
throughout; and any frame with no valid classification immediately resets
the counter to 0 and `last_stable_type` to none. -/
theorem stabilization_sequence_amended :
    (run_frames initSys [["10x20"], ["10x20"], ["10x20"], ["20x20"]]).last_stable_type
          = some "20x20" ∧
      (run_frames initSys [["10x20"], ["10x20"], ["10x20"], ["20x20"]]).stable_detection_count
          = 1 ∧
      (run_frames initSys
            [["10x20"], ["10x20"], ["10x20"], ["20x20"], ["20x20"]]).last_stable_type
          = some "20x20" ∧
      (run_frames initSys
            [["10x20"], ["10x20"], ["10x20"], ["20x20"], ["20x20"]]).stable_detection_count
          = 2 ∧
      (run_frames initSys
            [["10x20"], ["10x20"], ["10x20"], ["20x20"], ["20x20"], ["20x20"]]).last_stable_type
          = some "20x20" ∧
      (run_frames initSys
            [["10x20"], ["10x20"], ["10x20"], ["20x20"], ["20x20"],
              ["20x20"]]).stable_detection_count
          = 3 ∧
      (run_frames initSys
            [["10x20"], ["10x20"], ["10x20"], ["20x20"], ["20x20"], ["20x20"],
              ["20x20"]]).last_stable_type
          = some "20x20" ∧
      (run_frames initSys
            [["10x20"], ["10x20"], ["10x20"], ["20x20"], ["20x20"], ["20x20"],
              ["20x20"]]).stable_detection_count
          = 4 ∧
      ∀ s : SysState,
        (process_frame s []).stable_detection_count = 0 ∧
          (process_frame s []).last_stable_type = none := by
  refine ⟨by decide, by decide, by decide, by decide, by decide, by decide, by decide,
    by decide, ?_⟩
  intro s
  exact ⟨rfl, rfl⟩

/-- C8 (confirmed): the interior-angle stage of `is_aligned_rectangle` is
total and guarded: whenever two consecutive corners of the candidate
quadrilateral coincide, some edge vector has zero norm and the candidate is
rejected as not a rectangle; and whenever the stage succeeds, every argument
it hands to the inverse cosine has been clamped into the interval [-1, 1]. -/
theorem interior_check_guards_degenerate_and_clamps (box : Fin 4 → ℝ × ℝ) :
    (∀ i : Fin 4, box i = box (i + 1) → interior_cos_args box = none) ∧
      ∀ args : Fin 4 → ℝ, interior_cos_args box = some args →
        ∀ i : Fin 4, -1 ≤ args i ∧ args i ≤ 1 := by
  constructor
  · intro i hi
    have hv : vsub (box (i + 1)) (box i) = (0, 0) := by
      rw [← hi]
      unfold vsub
      simp
    unfold interior_cos_args
    rw [if_pos]
    refine ⟨i, ?_⟩
    rw [hv]
    unfold vnorm
    simp
  · intro args h
    unfold interior_cos_args at h
    split_ifs at h
    injection h with h2
    subst h2
    intro i
    unfold clamp_cos
    constructor
    · exact le_max_left _ _
    · exact max_le (by norm_num) (min_le_left _ _)

/-- A fully degenerate quadrilateral: all four corners at the origin. -/
def degenerate_box : Fin 4 → ℝ × ℝ := fun _ => (0, 0)

/-- C8 witness: the degenerate quadrilateral has coincident consecutive
corners and is rejected by the interior-angle stage. -/
theorem interior_check_guards_witness :
    degenerate_box 0 = degenerate_box (0 + 1) ∧
      interior_cos_args degenerate_box = none :=
  ⟨rfl, (interior_check_guards_degenerate_and_clamps degenerate_box).1 0 rfl⟩
